import Mathlib

/-!
Verification development for the AutoBuildGo provisioning service.

The Go sources are embedded shallowly:
  * machine strings are Lean `String`s; file contents are split into lines
    at `'\n'` characters, mirroring `strings.Split(s, "\n")` and
    `strings.Join(lines, "\n")`;
  * external collaborators (AWS config loader, Secrets Manager, HTTP
    client, git subprocesses, filesystem) are modelled as environment
    records supplying each call's outcome;
  * fallible Go calls returning `(T, error)` become `Except String T`
    (or, where the Go pair itself matters, an explicit pair);
  * side-effecting workflows additionally return a trace of the external
    operations they attempted, in order.
-/

/-- Splits a character list at every newline character: the semantics of
Go `strings.Split(s, "\n")` (the separator is the single byte `'\n'`). -/
def splitNl : List Char → List (List Char)
  | [] => [[]]
  | c :: cs =>
    if c = '\n' then [] :: splitNl cs
    else
      match splitNl cs with
      | [] => [[c]]
      | l :: ls => (c :: l) :: ls

/-- Joins character-list lines with a newline character between
consecutive lines: the semantics of Go `strings.Join(lines, "\n")`. -/
def joinNl : List (List Char) → List Char
  | [] => []
  | [l] => l
  | l :: ls => l ++ '\n' :: joinNl ls

theorem splitNl_ne_nil (cs : List Char) : splitNl cs ≠ [] := by
  cases cs with
  | nil => simp [splitNl]
  | cons c cs =>
    simp only [splitNl]
    split
    · simp
    · split <;> simp

theorem joinNl_splitNl (cs : List Char) : joinNl (splitNl cs) = cs := by
  induction cs with
  | nil => rfl
  | cons c cs ih =>
    simp only [splitNl]
    split
    · rename_i hc
      rcases hsplit : splitNl cs with _ | ⟨l, ls⟩
      · exact absurd hsplit (splitNl_ne_nil cs)
      · rw [hsplit] at ih
        simp [joinNl, ih, hc]
    · rcases hsplit : splitNl cs with _ | ⟨l, ls⟩
      · exact absurd hsplit (splitNl_ne_nil cs)
      · rw [hsplit] at ih
        cases ls with
        | nil => simpa [joinNl] using ih
        | cons l' ls' => simpa [joinNl] using ih

/-- Go `strings.Split(string(input), "\n")` lifted to Lean strings. -/
def splitLines (s : String) : List String :=
  (splitNl s.toList).map List.asString

/-- Go `strings.Join(lines, "\n")` lifted to Lean strings. -/
def joinLines (ls : List String) : String :=
  (joinNl (ls.map String.toList)).asString

theorem toList_asString (l : List Char) : l.asString.toList = l := rfl

theorem asString_toList (s : String) : s.toList.asString = s := by
  cases s
  rfl

theorem joinLines_splitLines (s : String) : joinLines (splitLines s) = s := by
  unfold joinLines splitLines
  rw [List.map_map]
  have hmap : (splitNl s.toList).map (String.toList ∘ List.asString)
      = splitNl s.toList := by
    apply List.map_id''
    intro l
    exact toList_asString l
  rw [hmap, joinNl_splitNl, asString_toList]

/-- Go `strings.HasPrefix(s, pre)`, modelled on the character lists of the
two strings. -/
def goHasPrefix (s pre : String) : Bool :=
  pre.toList.isPrefixOf s.toList

/-- The loop of `clone_push.go` lines 79–84: walk the lines and replace the
first one having prefix `"module"` with the new module declaration, leaving
every other line untouched (`break` after the first hit). -/
def updateModuleLine (username repoName : String) : List String → List String
  | [] => []
  | line :: rest =>
    if goHasPrefix line "module" then
      ("module github.com/" ++ username ++ "/" ++ repoName) :: rest
    else
      line :: updateModuleLine username repoName rest

/-- Embeds `clone_push.go` lines 78–85: split the go.mod content on newlines,
rewrite the first `module`-prefixed line, and rejoin with newlines. -/
def rewriteGoMod (username repoName input : String) : String :=
  joinLines (updateModuleLine username repoName (splitLines input))

theorem updateModuleLine_of_none (username repoName : String)
    (lines : List String)
    (h : ∀ l ∈ lines, goHasPrefix l "module" = false) :
    updateModuleLine username repoName lines = lines := by
  induction lines with
  | nil => rfl
  | cons line rest ih =>
    have hline : goHasPrefix line "module" = false := h line (by simp)
    simp only [updateModuleLine, hline, Bool.false_eq_true, if_false,
      List.cons.injEq, true_and]
    exact ih fun l hl => h l (by simp [hl])

theorem updateModuleLine_of_exists (username repoName : String)
    (lines : List String)
    (h : ∃ l ∈ lines, goHasPrefix l "module" = true) :
    updateModuleLine username repoName lines =
      lines.set (lines.findIdx fun l => goHasPrefix l "module")
        ("module github.com/" ++ username ++ "/" ++ repoName) := by
  induction lines with
  | nil => simp at h
  | cons line rest ih =>
    by_cases hline : goHasPrefix line "module" = true
    · simp [updateModuleLine, hline, List.findIdx_cons]
    · have hrest : ∃ l ∈ rest, goHasPrefix l "module" = true := by
        rcases h with ⟨l, hl, hpl⟩
        rcases List.mem_cons.mp hl with h1 | h2
        · exact absurd (h1 ▸ hpl) hline
        · exact ⟨l, h2, hpl⟩
      have hlf : goHasPrefix line "module" = false := by
        simpa using hline
      simp [updateModuleLine, hlf, List.findIdx_cons, ih hrest]

/-- Outcome of each external call made by `CloneAndPushRepo`
(`clone_push.go` lines 44–123).  Each field carries the result the mocked
collaborator (secrets service, GitHub API, git subprocess, filesystem)
would return; errors are their message strings. -/
structure CloneEnv where
  fetchSecretToken : Except String String
  fetchGitHubUsername : String → Except String String
  gitClone : Except String Unit
  chdirRepo : Except String Unit
  readGoMod : Except String String
  writeGoMod : Except String Unit
  gitAdd : Except String Unit
  gitCommit : Except String Unit
  gitPush : Except String Unit
  chdirParent : Except String Unit
  removeAll : Except String Unit

/-- One attempted external operation of `CloneAndPushRepo`, recorded in
order of attempt.  `writeFile` carries the content written back to
go.mod. -/
inductive CloneOp where
  | fetchToken
  | fetchUsername
  | gitClone
  | chdirRepo
  | readFile
  | writeFile (content : String)
  | gitAdd
  | gitCommit
  | gitPush
  | chdirParent
  | removeDir
  deriving DecidableEq, Repr

/-- Embeds `clone_push.go` lines 44–123: fetch token, fetch username, clone,
enter the clone, read go.mod, rewrite its module line, write it back,
stage, commit, push, return to the parent directory, and remove the
working copy; the first failing step's wrapped error is returned at once.

Returns the Go function's `error` result (`.ok ()` for `nil`) together
with the trace of operations attempted. -/
def CloneAndPushRepo (env : CloneEnv) (repoName : String) :
    Except String Unit × List CloneOp :=
  match env.fetchSecretToken with
  | .error e => (.error ("error fetching GitHub token: " ++ e), [.fetchToken])
  | .ok token =>
    match env.fetchGitHubUsername token with
    | .error e =>
        (.error ("error fetching GitHub username: " ++ e),
         [.fetchToken, .fetchUsername])
    | .ok username =>
      match env.gitClone with
      | .error e =>
          (.error ("error cloning repository: " ++ e),
           [.fetchToken, .fetchUsername, .gitClone])
      | .ok _ =>
        match env.chdirRepo with
        | .error e =>
            (.error ("error changing directory to cloned repository: " ++ e),
             [.fetchToken, .fetchUsername, .gitClone, .chdirRepo])
        | .ok _ =>
          match env.readGoMod with
          | .error e =>
              (.error ("error reading go.mod file: " ++ e),
               [.fetchToken, .fetchUsername, .gitClone, .chdirRepo, .readFile])
          | .ok input =>
            let output := rewriteGoMod username repoName input
            match env.writeGoMod with
            | .error e =>
                (.error ("error writing to go.mod file: " ++ e),
                 [.fetchToken, .fetchUsername, .gitClone, .chdirRepo,
                  .readFile, .writeFile output])
            | .ok _ =>
              match env.gitAdd with
              | .error e =>
                  (.error ("error adding go.mod file to git: " ++ e),
                   [.fetchToken, .fetchUsername, .gitClone, .chdirRepo,
                    .readFile, .writeFile output, .gitAdd])
              | .ok _ =>
                match env.gitCommit with
                | .error e =>
                    (.error ("error committing changes: " ++ e),
                     [.fetchToken, .fetchUsername, .gitClone, .chdirRepo,
                      .readFile, .writeFile output, .gitAdd, .gitCommit])
                | .ok _ =>
                  match env.gitPush with
                  | .error e =>
                      (.error ("error pushing changes: " ++ e),
                       [.fetchToken, .fetchUsername, .gitClone, .chdirRepo,
                        .readFile, .writeFile output, .gitAdd, .gitCommit,
                        .gitPush])
                  | .ok _ =>
                    match env.chdirParent with
                    | .error e =>
                        (.error ("error changing back to the parent directory: "
                            ++ e),
                         [.fetchToken, .fetchUsername, .gitClone, .chdirRepo,
                          .readFile, .writeFile output, .gitAdd, .gitCommit,
                          .gitPush, .chdirParent])
                    | .ok _ =>
                      match env.removeAll with
                      | .error e =>
                          (.error ("error removing the cloned repository: "
                              ++ e),
                           [.fetchToken, .fetchUsername, .gitClone, .chdirRepo,
                            .readFile, .writeFile output, .gitAdd, .gitCommit,
                            .gitPush, .chdirParent, .removeDir])
                      | .ok _ =>
                          (.ok (),
                           [.fetchToken, .fetchUsername, .gitClone, .chdirRepo,
                            .readFile, .writeFile output, .gitAdd, .gitCommit,
                            .gitPush, .chdirParent, .removeDir])

/-- The contents written back to go.mod along a trace, in order. -/
def writtenContents : List CloneOp → List String
  | [] => []
  | .writeFile c :: rest => c :: writtenContents rest
  | _ :: rest => writtenContents rest

/-- C1: for every go.mod content with at least one line beginning with
`module`, `CloneAndPushRepo` writes back exactly one content, equal to the
original lines with the first `module`-prefixed line replaced by
`module github.com/<username>/<repoName>` and every other line kept as the
very same list element (hence byte-identical), rejoined with newlines. -/
theorem cloneAndPushRepo_rewrites_first_module_line
    (env : CloneEnv) (repoName token username input : String)
    (htok : env.fetchSecretToken = .ok token)
    (huser : env.fetchGitHubUsername token = .ok username)
    (hclone : env.gitClone = .ok ())
    (hchdir : env.chdirRepo = .ok ())
    (hread : env.readGoMod = .ok input)
    (hmod : ∃ l ∈ splitLines input, goHasPrefix l "module" = true) :
    writtenContents (CloneAndPushRepo env repoName).2 =
      [joinLines ((splitLines input).set
        ((splitLines input).findIdx fun l => goHasPrefix l "module")
        ("module github.com/" ++ username ++ "/" ++ repoName))] := by
  have hset := updateModuleLine_of_exists username repoName (splitLines input) hmod
  simp only [CloneAndPushRepo, htok, huser, hclone, hchdir, hread,
    rewriteGoMod, hset]
  cases env.writeGoMod <;> cases env.gitAdd <;> cases env.gitCommit <;>
    cases env.gitPush <;> cases env.chdirParent <;> cases env.removeAll <;>
    simp [writtenContents]

/-- A fully succeeding environment for `CloneAndPushRepo`, whose go.mod
content carries a `module` line preceded by other content. -/
def cloneEnvAllOk : CloneEnv where
  fetchSecretToken := .ok "tok"
  fetchGitHubUsername := fun _ => .ok "acme-bot"
  gitClone := .ok ()
  chdirRepo := .ok ()
  readGoMod := .ok "// header\nmodule example.com/old\n\ngo 1.21"
  writeGoMod := .ok ()
  gitAdd := .ok ()
  gitCommit := .ok ()
  gitPush := .ok ()
  chdirParent := .ok ()
  removeAll := .ok ()

theorem cloneAndPushRepo_rewrites_first_module_line_witness :
    writtenContents (CloneAndPushRepo cloneEnvAllOk "svc-orders").2 =
      ["// header\nmodule github.com/acme-bot/svc-orders\n\ngo 1.21"] := by
  have h := cloneAndPushRepo_rewrites_first_module_line cloneEnvAllOk
    "svc-orders" "tok" "acme-bot" "// header\nmodule example.com/old\n\ngo 1.21"
    rfl rfl rfl rfl rfl (by decide)
  rw [h]
  decide

/-- C10: when no line of the go.mod content begins with `module`,
`CloneAndPushRepo` writes the file back with content identical to what was
read and proceeds to stage, commit, and push it (no error is reported at
the rewrite step). -/
theorem cloneAndPushRepo_no_module_line_writes_identity
    (env : CloneEnv) (repoName token username input : String)
    (htok : env.fetchSecretToken = .ok token)
    (huser : env.fetchGitHubUsername token = .ok username)
    (hclone : env.gitClone = .ok ())
    (hchdir : env.chdirRepo = .ok ())
    (hread : env.readGoMod = .ok input)
    (hnone : ∀ l ∈ splitLines input, goHasPrefix l "module" = false)
    (hwrite : env.writeGoMod = .ok ())
    (hadd : env.gitAdd = .ok ())
    (hcommit : env.gitCommit = .ok ()) :
    writtenContents (CloneAndPushRepo env repoName).2 = [input] ∧
    CloneOp.gitAdd ∈ (CloneAndPushRepo env repoName).2 ∧
    CloneOp.gitCommit ∈ (CloneAndPushRepo env repoName).2 ∧
    CloneOp.gitPush ∈ (CloneAndPushRepo env repoName).2 := by
  have hid : rewriteGoMod username repoName input = input := by
    unfold rewriteGoMod
    rw [updateModuleLine_of_none username repoName (splitLines input) hnone,
      joinLines_splitLines]
  simp only [CloneAndPushRepo, htok, huser, hclone, hchdir, hread, hwrite,
    hadd, hcommit, hid]
  cases env.gitPush <;> cases env.chdirParent <;> cases env.removeAll <;>
    simp [writtenContents]

/-- A fully succeeding environment whose go.mod content has no
`module`-prefixed line. -/
def cloneEnvNoModule : CloneEnv where
  fetchSecretToken := .ok "tok"
  fetchGitHubUsername := fun _ => .ok "acme-bot"
  gitClone := .ok ()
  chdirRepo := .ok ()
  readGoMod := .ok "// only a comment\ngo 1.21"
  writeGoMod := .ok ()
  gitAdd := .ok ()
  gitCommit := .ok ()
  gitPush := .ok ()
  chdirParent := .ok ()
  removeAll := .ok ()

theorem cloneAndPushRepo_no_module_line_writes_identity_witness :
    writtenContents (CloneAndPushRepo cloneEnvNoModule "svc-orders").2 =
      ["// only a comment\ngo 1.21"] ∧
    CloneOp.gitPush ∈ (CloneAndPushRepo cloneEnvNoModule "svc-orders").2 := by
  have h := cloneAndPushRepo_no_module_line_writes_identity cloneEnvNoModule
    "svc-orders" "tok" "acme-bot" "// only a comment\ngo 1.21"
    rfl rfl rfl rfl rfl (by decide) rfl rfl rfl
  exact ⟨h.1, h.2.2.2⟩

/-- C8: `CloneAndPushRepo` attempts removal of the working copy only after
every prior step succeeded; whichever listed step fails first, the function
returns that step's wrapped error immediately and removal is never
attempted, and when all prior steps succeed removal is attempted. -/
theorem cloneAndPushRepo_remove_only_after_success
    (env : CloneEnv) (repoName : String) :
    (∀ e, env.fetchSecretToken = .error e →
      (CloneAndPushRepo env repoName).1 =
        .error ("error fetching GitHub token: " ++ e) ∧
      CloneOp.removeDir ∉ (CloneAndPushRepo env repoName).2) ∧
    (∀ t e, env.fetchSecretToken = .ok t →
      env.fetchGitHubUsername t = .error e →
      (CloneAndPushRepo env repoName).1 =
        .error ("error fetching GitHub username: " ++ e) ∧
      CloneOp.removeDir ∉ (CloneAndPushRepo env repoName).2) ∧
    (∀ t u e, env.fetchSecretToken = .ok t →
      env.fetchGitHubUsername t = .ok u → env.gitClone = .error e →
      (CloneAndPushRepo env repoName).1 =
        .error ("error cloning repository: " ++ e) ∧
      CloneOp.removeDir ∉ (CloneAndPushRepo env repoName).2) ∧
    (∀ t u e, env.fetchSecretToken = .ok t →
      env.fetchGitHubUsername t = .ok u → env.gitClone = .ok () →
      env.chdirRepo = .error e →
      (CloneAndPushRepo env repoName).1 =
        .error ("error changing directory to cloned repository: " ++ e) ∧
      CloneOp.removeDir ∉ (CloneAndPushRepo env repoName).2) ∧
    (∀ t u e, env.fetchSecretToken = .ok t →
      env.fetchGitHubUsername t = .ok u → env.gitClone = .ok () →
      env.chdirRepo = .ok () → env.readGoMod = .error e →
      (CloneAndPushRepo env repoName).1 =
        .error ("error reading go.mod file: " ++ e) ∧
      CloneOp.removeDir ∉ (CloneAndPushRepo env repoName).2) ∧
    (∀ t u i e, env.fetchSecretToken = .ok t →
      env.fetchGitHubUsername t = .ok u → env.gitClone = .ok () →
      env.chdirRepo = .ok () → env.readGoMod = .ok i →
      env.writeGoMod = .error e →
      (CloneAndPushRepo env repoName).1 =
        .error ("error writing to go.mod file: " ++ e) ∧
      CloneOp.removeDir ∉ (CloneAndPushRepo env repoName).2) ∧
    (∀ t u i e, env.fetchSecretToken = .ok t →
      env.fetchGitHubUsername t = .ok u → env.gitClone = .ok () →
      env.chdirRepo = .ok () → env.readGoMod = .ok i →
      env.writeGoMod = .ok () → env.gitAdd = .error e →
      (CloneAndPushRepo env repoName).1 =
        .error ("error adding go.mod file to git: " ++ e) ∧
      CloneOp.removeDir ∉ (CloneAndPushRepo env repoName).2) ∧
    (∀ t u i e, env.fetchSecretToken = .ok t →
      env.fetchGitHubUsername t = .ok u → env.gitClone = .ok () →
      env.chdirRepo = .ok () → env.readGoMod = .ok i →
      env.writeGoMod = .ok () → env.gitAdd = .ok () →
      env.gitCommit = .error e →
      (CloneAndPushRepo env repoName).1 =
        .error ("error committing changes: " ++ e) ∧
      CloneOp.removeDir ∉ (CloneAndPushRepo env repoName).2) ∧
    (∀ t u i e, env.fetchSecretToken = .ok t →
      env.fetchGitHubUsername t = .ok u → env.gitClone = .ok () →
      env.chdirRepo = .ok () → env.readGoMod = .ok i →
      env.writeGoMod = .ok () → env.gitAdd = .ok () →
      env.gitCommit = .ok () → env.gitPush = .error e →
      (CloneAndPushRepo env repoName).1 =
        .error ("error pushing changes: " ++ e) ∧
      CloneOp.removeDir ∉ (CloneAndPushRepo env repoName).2) ∧
    (∀ t u i e, env.fetchSecretToken = .ok t →
      env.fetchGitHubUsername t = .ok u → env.gitClone = .ok () →
      env.chdirRepo = .ok () → env.readGoMod = .ok i →
      env.writeGoMod = .ok () → env.gitAdd = .ok () →
      env.gitCommit = .ok () → env.gitPush = .ok () →
      env.chdirParent = .error e →
      (CloneAndPushRepo env repoName).1 =
        .error ("error changing back to the parent directory: " ++ e) ∧
      CloneOp.removeDir ∉ (CloneAndPushRepo env repoName).2) ∧
    (∀ t u i, env.fetchSecretToken = .ok t →
      env.fetchGitHubUsername t = .ok u → env.gitClone = .ok () →
      env.chdirRepo = .ok () → env.readGoMod = .ok i →
      env.writeGoMod = .ok () → env.gitAdd = .ok () →
      env.gitCommit = .ok () → env.gitPush = .ok () →
      env.chdirParent = .ok () →
      CloneOp.removeDir ∈ (CloneAndPushRepo env repoName).2) := by
  refine ⟨?_, ?_, ?_, ?_, ?_, ?_, ?_, ?_, ?_, ?_, ?_⟩
  · intro e h
    simp [CloneAndPushRepo, h]
  · intro t e h1 h2
    simp [CloneAndPushRepo, h1, h2]
  · intro t u e h1 h2 h3
    simp [CloneAndPushRepo, h1, h2, h3]
  · intro t u e h1 h2 h3 h4
    simp [CloneAndPushRepo, h1, h2, h3, h4]
  · intro t u e h1 h2 h3 h4 h5
    simp [CloneAndPushRepo, h1, h2, h3, h4, h5]
  · intro t u i e h1 h2 h3 h4 h5 h6
    simp [CloneAndPushRepo, h1, h2, h3, h4, h5, h6]
  · intro t u i e h1 h2 h3 h4 h5 h6 h7
    simp [CloneAndPushRepo, h1, h2, h3, h4, h5, h6, h7]
  · intro t u i e h1 h2 h3 h4 h5 h6 h7 h8
    simp [CloneAndPushRepo, h1, h2, h3, h4, h5, h6, h7, h8]
  · intro t u i e h1 h2 h3 h4 h5 h6 h7 h8 h9
    simp [CloneAndPushRepo, h1, h2, h3, h4, h5, h6, h7, h8, h9]
  · intro t u i e h1 h2 h3 h4 h5 h6 h7 h8 h9 h10
    simp [CloneAndPushRepo, h1, h2, h3, h4, h5, h6, h7, h8, h9, h10]
  · intro t u i h1 h2 h3 h4 h5 h6 h7 h8 h9 h10
    cases hrm : env.removeAll <;>
      simp [CloneAndPushRepo, h1, h2, h3, h4, h5, h6, h7, h8, h9, h10, hrm]

/-- An environment whose token fetch fails; every later collaborator would
succeed, so any attempt past the first step would be visible. -/
def cloneEnvTokenFail : CloneEnv where
  fetchSecretToken := .error "mocked error fetching token"
  fetchGitHubUsername := fun _ => .ok "acme-bot"
  gitClone := .ok ()
  chdirRepo := .ok ()
  readGoMod := .ok "module example.com/old"
  writeGoMod := .ok ()
  gitAdd := .ok ()
  gitCommit := .ok ()
  gitPush := .ok ()
  chdirParent := .ok ()
  removeAll := .ok ()

theorem cloneAndPushRepo_remove_only_after_success_witness :
    ((CloneAndPushRepo cloneEnvTokenFail "testrepo").1 =
        .error "error fetching GitHub token: mocked error fetching token" ∧
      CloneOp.removeDir ∉ (CloneAndPushRepo cloneEnvTokenFail "testrepo").2) ∧
    CloneOp.removeDir ∈ (CloneAndPushRepo cloneEnvAllOk "testrepo").2 := by
  refine ⟨?_, ?_⟩
  · exact (cloneAndPushRepo_remove_only_after_success cloneEnvTokenFail
      "testrepo").1 "mocked error fetching token" rfl
  · exact (cloneAndPushRepo_remove_only_after_success cloneEnvAllOk
      "testrepo").2.2.2.2.2.2.2.2.2.2 "tok" "acme-bot"
      "// header\nmodule example.com/old\n\ngo 1.21" rfl rfl rfl rfl rfl rfl
      rfl rfl rfl rfl

/-- The HTTP response seen by `FetchGitHubUsername`: its status code and
the result of JSON-decoding its body into `{login}`. -/
structure UserResponse where
  statusCode : Nat
  decodeLogin : Except String String

/-- Outcomes of the two external calls of `FetchGitHubUsername`
(`clone_push.go` lines 126–156): building the request and performing it. -/
structure UserEnv where
  newRequest : Except String Unit
  doRequest : Except String UserResponse

/-- Embeds `clone_push.go` lines 126–156: build a GET request, perform it, reject
any status other than 200 with an error embedding the numeric status code,
otherwise decode the body and return the login.  Mirrors the Go pair
return `(string, error)`: the second component is `some message` when the
Go error is non-nil. -/
def FetchGitHubUsername (env : UserEnv) (token : String) :
    String × Option String :=
  match env.newRequest with
  | .error e => ("", some e)
  | .ok _ =>
    match env.doRequest with
    | .error e => ("", some e)
    | .ok resp =>
      if resp.statusCode ≠ 200 then
        ("", some ("failed to fetch GitHub username, status code: "
          ++ toString resp.statusCode))
      else
        match resp.decodeLogin with
        | .error e => ("", some e)
        | .ok login => (login, none)

/-- C6: on any response whose status is not in the 2xx range,
`FetchGitHubUsername` returns the empty username together with an error
message that embeds that exact numeric status code. -/
theorem fetchGitHubUsername_non2xx_reports_status
    (env : UserEnv) (token : String) (resp : UserResponse)
    (hreq : env.newRequest = .ok ())
    (hdo : env.doRequest = .ok resp)
    (hstatus : ¬ (200 ≤ resp.statusCode ∧ resp.statusCode < 300)) :
    FetchGitHubUsername env token =
      ("", some ("failed to fetch GitHub username, status code: "
        ++ toString resp.statusCode)) := by
  have hne : resp.statusCode ≠ 200 := by
    intro h
    exact hstatus (by omega)
  simp [FetchGitHubUsername, hreq, hdo, hne]

/-- An environment answering the identity lookup with HTTP 401 and a
decodable body. -/
def userEnv401 : UserEnv where
  newRequest := .ok ()
  doRequest := .ok { statusCode := 401, decodeLogin := .error "Bad credentials" }

theorem fetchGitHubUsername_non2xx_reports_status_witness :
    FetchGitHubUsername userEnv401 "mocked_token" =
      ("", some "failed to fetch GitHub username, status code: 401") := by
  have h := fetchGitHubUsername_non2xx_reports_status userEnv401 "mocked_token"
    { statusCode := 401, decodeLogin := .error "Bad credentials" }
    rfl rfl (by decide)
  simpa using h

/-- Outcomes of the external calls of `FetchSecretValue` (part_001 lines
64–105): the AWS config load, the Secrets Manager `GetSecretValue` call for
the fixed secret id `github_token` (returning the raw secret string), and
`json.Unmarshal` of that string into a flat key-value map. -/
structure SecretEnv where
  loadConfig : Except String Unit
  getSecretValue : Except String String
  unmarshal : String → Except String (String → Option String)

/-- Embeds part_001 lines 64–105: look the key up in the cache; on a miss load the
config, fetch the secret bundle remotely, parse it, merge every parsed key
into the cache, and finally project the requested key out of the parsed
bundle.  Returns the Go `(string, error)` result as `Except`, the updated
cache, and the number of remote `GetSecretValue` calls performed. -/
def FetchSecretValue (env : SecretEnv) (cache : String → Option String)
    (key : String) :
    Except String String × (String → Option String) × Nat :=
  match cache key with
  | some value => (.ok value, cache, 0)
  | none =>
    match env.loadConfig with
    | .error e => (.error ("error loading AWS config: " ++ e), cache, 0)
    | .ok _ =>
      match env.getSecretValue with
      | .error e => (.error ("error fetching secret value: " ++ e), cache, 1)
      | .ok secretString =>
        match env.unmarshal secretString with
        | .error e =>
            (.error ("error unmarshalling secret value: " ++ e), cache, 1)
        | .ok secretData =>
          let cache' := fun k =>
            match secretData k with
            | some v => some v
            | none => cache k
          match secretData key with
          | none => (.error ("secret key " ++ key ++ " not found"), cache', 1)
          | some value => (.ok value, cache', 1)

/-- C2: for a key present in the bundle and not yet cached, the first
successful `FetchSecretValue` performs exactly one remote fetch, merges
every key of the fetched bundle into the cache, and a second call for the
same key returns the same value as a cache hit with no remote fetch:
exactly one fetch across the two calls. -/
theorem fetchSecretValue_second_call_cache_hit
    (env : SecretEnv) (cache : String → Option String)
    (key secretString v : String) (bundle : String → Option String)
    (hmiss : cache key = none)
    (hcfg : env.loadConfig = .ok ())
    (hget : env.getSecretValue = .ok secretString)
    (hparse : env.unmarshal secretString = .ok bundle)
    (hkey : bundle key = some v) :
    (FetchSecretValue env cache key).1 = .ok v ∧
    (FetchSecretValue env cache key).2.2 = 1 ∧
    (∀ k w, bundle k = some w →
      (FetchSecretValue env cache key).2.1 k = some w) ∧
    (FetchSecretValue env
        (FetchSecretValue env cache key).2.1 key).1 = .ok v ∧
    (FetchSecretValue env
        (FetchSecretValue env cache key).2.1 key).2.2 = 0 ∧
    (FetchSecretValue env cache key).2.2 +
      (FetchSecretValue env
        (FetchSecretValue env cache key).2.1 key).2.2 = 1 := by
  have hfirst : FetchSecretValue env cache key =
      (.ok v,
       fun k => match bundle k with | some w => some w | none => cache k,
       1) := by
    simp [FetchSecretValue, hmiss, hcfg, hget, hparse, hkey]
  refine ⟨by rw [hfirst], by rw [hfirst], ?_, ?_, ?_, ?_⟩
  · intro k w hk
    rw [hfirst]
    simp [hk]
  · rw [hfirst]
    simp [FetchSecretValue, hkey]
  · rw [hfirst]
    simp [FetchSecretValue, hkey]
  · rw [hfirst]
    simp [FetchSecretValue, hkey]

/-- A secret environment whose bundle holds the two keys the service
stores, mirroring the test fixture of part_003. -/
def secretEnvOk : SecretEnv where
  loadConfig := .ok ()
  getSecretValue := .ok "raw"
  unmarshal := fun s =>
    if s = "raw" then
      .ok fun k =>
        if k = "GITHUB_TOKEN" then some "test_github_token"
        else if k = "TEMPLATE_URL" then some "test_template_url"
        else none
    else .error "invalid json"

/-- The empty starting cache. -/
def emptyCache : String → Option String := fun _ => none

theorem fetchSecretValue_second_call_cache_hit_witness :
    (FetchSecretValue secretEnvOk emptyCache "GITHUB_TOKEN").1 =
      .ok "test_github_token" ∧
    (FetchSecretValue secretEnvOk emptyCache "GITHUB_TOKEN").2.2 +
      (FetchSecretValue secretEnvOk
        (FetchSecretValue secretEnvOk emptyCache "GITHUB_TOKEN").2.1
        "GITHUB_TOKEN").2.2 = 1 := by
  have h := fetchSecretValue_second_call_cache_hit secretEnvOk emptyCache
    "GITHUB_TOKEN" "raw" "test_github_token"
    (fun k =>
      if k = "GITHUB_TOKEN" then some "test_github_token"
      else if k = "TEMPLATE_URL" then some "test_template_url"
      else none)
    rfl rfl rfl (by simp [secretEnvOk]) (by simp)
  exact ⟨h.1, h.2.2.2.2.2⟩

/-- C9: when the bundle is fetched and parsed successfully but lacks the
requested key, `FetchSecretValue` returns the key-not-found error, yet the
returned cache has every key of the fetched bundle merged in (and the
remote fetch did happen): the cache is mutated on this error path. -/
theorem fetchSecretValue_key_not_found_still_merges
    (env : SecretEnv) (cache : String → Option String)
    (key secretString : String) (bundle : String → Option String)
    (hmiss : cache key = none)
    (hcfg : env.loadConfig = .ok ())
    (hget : env.getSecretValue = .ok secretString)
    (hparse : env.unmarshal secretString = .ok bundle)
    (hkey : bundle key = none) :
    (FetchSecretValue env cache key).1 =
      .error ("secret key " ++ key ++ " not found") ∧
    (FetchSecretValue env cache key).2.2 = 1 ∧
    (∀ k w, bundle k = some w →
      (FetchSecretValue env cache key).2.1 k = some w) := by
  have hrun : FetchSecretValue env cache key =
      (.error ("secret key " ++ key ++ " not found"),
       fun k => match bundle k with | some w => some w | none => cache k,
       1) := by
    simp [FetchSecretValue, hmiss, hcfg, hget, hparse, hkey]
  refine ⟨by rw [hrun], by rw [hrun], ?_⟩
  intro k w hk
  rw [hrun]
  simp [hk]

theorem fetchSecretValue_key_not_found_still_merges_witness :
    (FetchSecretValue secretEnvOk emptyCache "INVALID_KEY").1 =
      .error "secret key INVALID_KEY not found" ∧
    (FetchSecretValue secretEnvOk emptyCache "INVALID_KEY").2.1
      "GITHUB_TOKEN" = some "test_github_token" := by
  have h := fetchSecretValue_key_not_found_still_merges secretEnvOk emptyCache
    "INVALID_KEY" "raw"
    (fun k =>
      if k = "GITHUB_TOKEN" then some "test_github_token"
      else if k = "TEMPLATE_URL" then some "test_template_url"
      else none)
    rfl rfl rfl (by simp [secretEnvOk]) (by simp)
  exact ⟨h.1, h.2.2 "GITHUB_TOKEN" "test_github_token" (by simp)⟩

/-- Embeds part_002: the repository configuration sent to the template-generation
endpoint. -/
structure RepoConfig where
  Name : String
  Description : String
  Private : Bool
  AutoInit : Bool
  TemplateURL : String
  deriving DecidableEq, Repr

/-- Modelled from the spec: the non-fallible `DefaultRepoConfig` variant
called by `CreateRepoHandler` (webserver.go line 75) is absent from src
(only its unit test is present).  Per spec §3 the configuration is derived
from the request plus the resolved template URL: name and description pass
through, visibility is private, auto-initialize is true. -/
def DefaultRepoConfig (templateURL repoName description : String) :
    RepoConfig where
  Name := repoName
  Description := description
  Private := true
  AutoInit := true
  TemplateURL := templateURL

/-- The JSON body of a `/create-repo` request (webserver.go lines 21–24). -/
structure RepoRequest where
  repoName : String
  description : String
  deriving DecidableEq, Repr

/-- The parts of the inbound HTTP request that `CreateRepoHandler`
inspects: the method, and the result of JSON-decoding the body
(`none` when decoding fails). -/
structure HttpRequest where
  method : String
  body : Option RepoRequest
  deriving DecidableEq, Repr

/-- Outcomes of the external calls made by `CreateRepoHandler`
(webserver.go lines 58–90), plus the template URL the configuration
builder resolves. -/
structure HandlerEnv where
  createECRClient : Except String Unit
  createRepo : String → Except String Unit
  templateURL : String
  createGitRepository : RepoConfig → Except String Unit
  cloneAndPush : String → Except String Unit

/-- One step performed by `CreateRepoHandler`, recorded in order.
`settleSleep` carries the delay in seconds. -/
inductive HandlerStep where
  | createECRClient
  | createECRRepo
  | loadEnv
  | createGitRepo
  | settleSleep (seconds : Nat)
  | cloneAndPush
  deriving DecidableEq, Repr

/-- What `CreateRepoHandler` wrote to the response writer, the steps it
performed, and (when it was built) the repository configuration it passed
to the Git repository creator. -/
structure HandlerResult where
  status : Nat
  body : String
  trace : List HandlerStep
  config : Option RepoConfig
  deriving DecidableEq, Repr

/-- Embeds webserver.go lines 35–94: reject non-POST methods, undecodable bodies
and empty repository names; default the description when empty; then create
the ECR client, create the ECR repository, load the environment, build the
configuration and create the Git repository, sleep 20 seconds, and clone
and push — stopping at the first failing step with a
`Failed to <step>: <cause>` message and status 500. -/
def CreateRepoHandler (env : HandlerEnv) (r : HttpRequest) : HandlerResult :=
  if r.method ≠ "POST" then
    ⟨405, "Method not allowed", [], none⟩
  else
    match r.body with
    | none => ⟨400, "Bad request", [], none⟩
    | some req =>
      if req.repoName = "" then
        ⟨400, "Repository name is required", [], none⟩
      else
        let description :=
          if req.description = "" then
            "Created from a template via automated setup"
          else req.description
        match env.createECRClient with
        | .error e =>
            ⟨500, "Failed to create ECR client: " ++ e,
             [.createECRClient], none⟩
        | .ok _ =>
          match env.createRepo req.repoName with
          | .error e =>
              ⟨500, "Failed to create ECR repository: " ++ e,
               [.createECRClient, .createECRRepo], none⟩
          | .ok _ =>
            let config := DefaultRepoConfig env.templateURL req.repoName
              description
            match env.createGitRepository config with
            | .error e =>
                ⟨500, "Failed to create Git repository: " ++ e,
                 [.createECRClient, .createECRRepo, .loadEnv,
                  .createGitRepo], some config⟩
            | .ok _ =>
              match env.cloneAndPush req.repoName with
              | .error e =>
                  ⟨500, "Failed to clone and push repository: " ++ e,
                   [.createECRClient, .createECRRepo, .loadEnv,
                    .createGitRepo, .settleSleep 20, .cloneAndPush],
                   some config⟩
              | .ok _ =>
                  ⟨200, "ECR and Git repositories created successfully",
                   [.createECRClient, .createECRRepo, .loadEnv,
                    .createGitRepo, .settleSleep 20, .cloneAndPush],
                   some config⟩

/-- The configuration `CreateRepoHandler` builds at webserver.go line 75:
the request's name and its (possibly defaulted) description. -/
def handlerConfig (env : HandlerEnv) (req : RepoRequest) : RepoConfig :=
  DefaultRepoConfig env.templateURL req.repoName
    (if req.description = "" then
      "Created from a template via automated setup"
    else req.description)

theorem createRepoHandler_trace_cases (env : HandlerEnv) (r : HttpRequest) :
    (CreateRepoHandler env r).trace = [] ∨
    (CreateRepoHandler env r).trace = [.createECRClient] ∨
    (CreateRepoHandler env r).trace = [.createECRClient, .createECRRepo] ∨
    (CreateRepoHandler env r).trace =
      [.createECRClient, .createECRRepo, .loadEnv, .createGitRepo] ∨
    (CreateRepoHandler env r).trace =
      [.createECRClient, .createECRRepo, .loadEnv, .createGitRepo,
       .settleSleep 20, .cloneAndPush] := by
  by_cases hmethod : r.method ≠ "POST"
  · simp [CreateRepoHandler, hmethod]
  · rcases hb : r.body with _ | req
    · simp [CreateRepoHandler, hmethod, hb]
    · by_cases hname : req.repoName = ""
      · simp [CreateRepoHandler, hmethod, hb, hname]
      · rcases hc : env.createECRClient with e | u
        · simp [CreateRepoHandler, hmethod, hb, hname, hc]
        · rcases hr : env.createRepo req.repoName with e | v
          · simp [CreateRepoHandler, hmethod, hb, hname, hc, hr]
          · rcases hg : env.createGitRepository
                (DefaultRepoConfig env.templateURL req.repoName
                  (if req.description = "" then
                    "Created from a template via automated setup"
                  else req.description)) with e | w
            · simp [CreateRepoHandler, hmethod, hb, hname, hc, hr, hg]
            · rcases hcl : env.cloneAndPush req.repoName with e | x <;>
                simp [CreateRepoHandler, hmethod, hb, hname, hc, hr, hg, hcl]

/-- C3: on an accepted request the handler performs its steps in the fixed
order — ECR client, ECR repository, environment load, Git repository
creation, 20-second settle sleep, clone-and-push — stopping at the first
failing step; no step is re-entered, and if registry creation fails the
clone workflow is never invoked. -/
theorem createRepoHandler_step_sequence
    (env : HandlerEnv) (r : HttpRequest) (req : RepoRequest)
    (hm : r.method = "POST") (hb : r.body = some req)
    (hn : req.repoName ≠ "") :
    ((CreateRepoHandler env r).trace.Nodup) ∧
    (∀ e, env.createECRClient = .error e →
      (CreateRepoHandler env r).trace = [.createECRClient]) ∧
    (∀ e, env.createECRClient = .ok () →
      env.createRepo req.repoName = .error e →
      (CreateRepoHandler env r).trace =
        [.createECRClient, .createECRRepo]) ∧
    (∀ e, env.createECRClient = .ok () →
      env.createRepo req.repoName = .ok () →
      env.createGitRepository (handlerConfig env req) = .error e →
      (CreateRepoHandler env r).trace =
        [.createECRClient, .createECRRepo, .loadEnv, .createGitRepo]) ∧
    (∀ e, env.createECRClient = .ok () →
      env.createRepo req.repoName = .ok () →
      env.createGitRepository (handlerConfig env req) = .ok () →
      env.cloneAndPush req.repoName = .error e →
      (CreateRepoHandler env r).trace =
        [.createECRClient, .createECRRepo, .loadEnv, .createGitRepo,
         .settleSleep 20, .cloneAndPush]) ∧
    (env.createECRClient = .ok () →
      env.createRepo req.repoName = .ok () →
      env.createGitRepository (handlerConfig env req) = .ok () →
      env.cloneAndPush req.repoName = .ok () →
      (CreateRepoHandler env r).trace =
        [.createECRClient, .createECRRepo, .loadEnv, .createGitRepo,
         .settleSleep 20, .cloneAndPush]) ∧
    (∀ e, env.createECRClient = .error e →
      HandlerStep.cloneAndPush ∉ (CreateRepoHandler env r).trace) ∧
    (∀ e, env.createRepo req.repoName = .error e →
      HandlerStep.cloneAndPush ∉ (CreateRepoHandler env r).trace) := by
  refine ⟨?_, ?_, ?_, ?_, ?_, ?_, ?_, ?_⟩
  · rcases createRepoHandler_trace_cases env r with h | h | h | h | h <;>
      rw [h] <;> decide
  · intro e h
    simp [CreateRepoHandler, hm, hb, hn, h]
  · intro e h1 h2
    simp [CreateRepoHandler, hm, hb, hn, h1, h2]
  · intro e h1 h2 h3
    simp only [handlerConfig] at h3
    simp [CreateRepoHandler, hm, hb, hn, h1, h2, h3]
  · intro e h1 h2 h3 h4
    simp only [handlerConfig] at h3
    simp [CreateRepoHandler, hm, hb, hn, h1, h2, h3, h4]
  · intro h1 h2 h3 h4
    simp only [handlerConfig] at h3
    simp [CreateRepoHandler, hm, hb, hn, h1, h2, h3, h4]
  · intro e h
    simp [CreateRepoHandler, hm, hb, hn, h]
  · intro e h
    cases hc : env.createECRClient with
    | error e' => simp [CreateRepoHandler, hm, hb, hn, hc]
    | ok u => cases u; simp [CreateRepoHandler, hm, hb, hn, hc, h]

/-- An environment for the handler in which every step succeeds. -/
def handlerEnvAllOk : HandlerEnv where
  createECRClient := .ok ()
  createRepo := fun _ => .ok ()
  templateURL := "https://api.github.com/repos/owner/tmpl/generate"
  createGitRepository := fun _ => .ok ()
  cloneAndPush := fun _ => .ok ()

/-- An accepted POST request with an empty description. -/
def requestOrders : HttpRequest where
  method := "POST"
  body := some { repoName := "svc-orders", description := "" }

theorem createRepoHandler_step_sequence_witness :
    (CreateRepoHandler handlerEnvAllOk requestOrders).trace =
      [.createECRClient, .createECRRepo, .loadEnv, .createGitRepo,
       .settleSleep 20, .cloneAndPush] := by
  exact (createRepoHandler_step_sequence handlerEnvAllOk requestOrders
    { repoName := "svc-orders", description := "" } rfl rfl (by decide)
    ).2.2.2.2.2.1 rfl rfl rfl rfl

/-- C5: whichever provisioning step fails first, the handler returns one
failure response whose message is exactly the step-naming prefix
`Failed to <step>: ` followed by the unmodified underlying cause, and no
later step runs. -/
theorem createRepoHandler_failure_message
    (env : HandlerEnv) (r : HttpRequest) (req : RepoRequest)
    (hm : r.method = "POST") (hb : r.body = some req)
    (hn : req.repoName ≠ "") :
    (∀ e, env.createECRClient = .error e →
      (CreateRepoHandler env r).status = 500 ∧
      (CreateRepoHandler env r).body = "Failed to create ECR client: " ++ e ∧
      HandlerStep.createGitRepo ∉ (CreateRepoHandler env r).trace ∧
      HandlerStep.cloneAndPush ∉ (CreateRepoHandler env r).trace) ∧
    (∀ e, env.createECRClient = .ok () →
      env.createRepo req.repoName = .error e →
      (CreateRepoHandler env r).status = 500 ∧
      (CreateRepoHandler env r).body =
        "Failed to create ECR repository: " ++ e ∧
      HandlerStep.createGitRepo ∉ (CreateRepoHandler env r).trace ∧
      HandlerStep.cloneAndPush ∉ (CreateRepoHandler env r).trace) ∧
    (∀ e, env.createECRClient = .ok () →
      env.createRepo req.repoName = .ok () →
      env.createGitRepository (handlerConfig env req) = .error e →
      (CreateRepoHandler env r).status = 500 ∧
      (CreateRepoHandler env r).body =
        "Failed to create Git repository: " ++ e ∧
      HandlerStep.cloneAndPush ∉ (CreateRepoHandler env r).trace) ∧
    (∀ e, env.createECRClient = .ok () →
      env.createRepo req.repoName = .ok () →
      env.createGitRepository (handlerConfig env req) = .ok () →
      env.cloneAndPush req.repoName = .error e →
      (CreateRepoHandler env r).status = 500 ∧
      (CreateRepoHandler env r).body =
        "Failed to clone and push repository: " ++ e) := by
  refine ⟨?_, ?_, ?_, ?_⟩
  · intro e h
    simp [CreateRepoHandler, hm, hb, hn, h]
  · intro e h1 h2
    simp [CreateRepoHandler, hm, hb, hn, h1, h2]
  · intro e h1 h2 h3
    simp only [handlerConfig] at h3
    simp [CreateRepoHandler, hm, hb, hn, h1, h2, h3]
  · intro e h1 h2 h3 h4
    simp only [handlerConfig] at h3
    simp [CreateRepoHandler, hm, hb, hn, h1, h2, h3, h4]

/-- An environment in which template repository creation fails with the
422 response of the spec scenario; every other collaborator succeeds. -/
def handlerEnv422 : HandlerEnv where
  createECRClient := .ok ()
  createRepo := fun _ => .ok ()
  templateURL := "https://api.github.com/repos/owner/tmpl/generate"
  createGitRepository := fun _ =>
    .error "failed to create repository, status code: 422, response: name already exists"
  cloneAndPush := fun _ => .ok ()

theorem createRepoHandler_failure_message_witness :
    (CreateRepoHandler handlerEnv422 requestOrders).status = 500 ∧
    (CreateRepoHandler handlerEnv422 requestOrders).body =
      "Failed to create Git repository: failed to create repository, status code: 422, response: name already exists" ∧
    HandlerStep.cloneAndPush ∉
      (CreateRepoHandler handlerEnv422 requestOrders).trace := by
  exact (createRepoHandler_failure_message handlerEnv422 requestOrders
    { repoName := "svc-orders", description := "" } rfl rfl (by decide)
    ).2.2.1
    "failed to create repository, status code: 422, response: name already exists"
    rfl rfl rfl

/-- C7: on an accepted request whose registry steps succeed, the
configuration the handler builds carries the canned default description
when the request's description is empty, and the request's description
unchanged otherwise. -/
theorem createRepoHandler_description_defaulting
    (env : HandlerEnv) (r : HttpRequest) (req : RepoRequest)
    (hm : r.method = "POST") (hb : r.body = some req)
    (hn : req.repoName ≠ "")
    (hecr : env.createECRClient = .ok ())
    (hrepo : env.createRepo req.repoName = .ok ()) :
    ∃ c, (CreateRepoHandler env r).config = some c ∧
      (req.description = "" →
        c.Description = "Created from a template via automated setup") ∧
      (req.description ≠ "" → c.Description = req.description) := by
  refine ⟨handlerConfig env req, ?_, ?_, ?_⟩
  · simp only [CreateRepoHandler, hm, hb, hn, hecr, hrepo, handlerConfig]
    simp only [ne_eq, not_true_eq_false, if_false, if_neg hn]
    repeat' split
    all_goals rfl
  · intro h
    simp [handlerConfig, DefaultRepoConfig, h]
  · intro h
    simp [handlerConfig, DefaultRepoConfig, h]

theorem createRepoHandler_description_defaulting_witness :
    ∃ c, (CreateRepoHandler handlerEnvAllOk requestOrders).config = some c ∧
      c.Description = "Created from a template via automated setup" := by
  obtain ⟨c, hc, hd, _⟩ := createRepoHandler_description_defaulting
    handlerEnvAllOk requestOrders
    { repoName := "svc-orders", description := "" } rfl rfl (by decide)
    rfl rfl
  exact ⟨c, hc, hd rfl⟩

/-- The HTTP response seen by `CreateGitRepository`: its status code and
the result of reading its body text. -/
structure GitResponse where
  statusCode : Nat
  body : Except String String

/-- Outcomes of the external calls of `CreateGitRepository`: the secret
token fetch, the request construction against the template URL, and the
HTTP round trip. -/
structure GitEnv where
  fetchSecret : Except String String
  newRequest : Except String Unit
  doRequest : Except String GitResponse

/-- Modelled from the spec: the implementation of `CreateGitRepository` is
absent from src (only `gitsetup_test.go` is present).  Per spec §4.3 it
builds an authenticated POST to the template-generation endpoint, treats
HTTP 201 as success, and reports any other status as a failure carrying
the status code and the response body text verbatim; the message format is
the one `TestCreateGitRepository` expects
(`failed to create repository, status code: <n>, response: <body>`), and a
body-read failure is wrapped as `failed to read response body: <cause>`.
Transport-level failures propagate unmodified. -/
def CreateGitRepository (env : GitEnv) (config : RepoConfig) :
    Except String Unit :=
  match env.fetchSecret with
  | .error e => .error e
  | .ok _ =>
    match env.newRequest with
    | .error e => .error e
    | .ok _ =>
      match env.doRequest with
      | .error e => .error e
      | .ok resp =>
        if resp.statusCode = 201 then .ok ()
        else
          match resp.body with
          | .error e => .error ("failed to read response body: " ++ e)
          | .ok body =>
              .error ("failed to create repository, status code: "
                ++ toString resp.statusCode ++ ", response: " ++ body)

/-- C4: `CreateGitRepository` succeeds exactly when the template-generation
POST answers 201; any other status yields an error carrying that numeric
status code and the response body text verbatim. -/
theorem createGitRepository_success_iff_201
    (env : GitEnv) (config : RepoConfig) (token : String)
    (resp : GitResponse) (body : String)
    (hsec : env.fetchSecret = .ok token)
    (hreq : env.newRequest = .ok ())
    (hdo : env.doRequest = .ok resp)
    (hbody : resp.body = .ok body) :
    (CreateGitRepository env config = .ok () ↔ resp.statusCode = 201) ∧
    (resp.statusCode ≠ 201 → CreateGitRepository env config =
      .error ("failed to create repository, status code: "
        ++ toString resp.statusCode ++ ", response: " ++ body)) := by
  by_cases h201 : resp.statusCode = 201
  · refine ⟨?_, fun h => absurd h201 h⟩
    simp [CreateGitRepository, hsec, hreq, hdo, h201]
  · refine ⟨?_, fun _ => ?_⟩
    · simp [CreateGitRepository, hsec, hreq, hdo, h201, hbody]
    · simp [CreateGitRepository, hsec, hreq, hdo, h201, hbody]

/-- A transport environment answering the template-generation POST with
HTTP 400 and body `Bad Request`, as in the failing test case. -/
def gitEnv400 : GitEnv where
  fetchSecret := .ok "mock_token"
  newRequest := .ok ()
  doRequest := .ok { statusCode := 400, body := .ok "Bad Request" }

/-- A transport environment answering with HTTP 201, as in the succeeding
test case. -/
def gitEnv201 : GitEnv where
  fetchSecret := .ok "mock_token"
  newRequest := .ok ()
  doRequest := .ok { statusCode := 201, body := .ok "" }

/-- The configuration the tests submit. -/
def testRepoConfig : RepoConfig where
  Name := "test-repo"
  Description := "test description"
  Private := true
  AutoInit := true
  TemplateURL := "https://api.github.com/repos/template-owner/template-repo/generate"

theorem createGitRepository_success_iff_201_witness :
    CreateGitRepository gitEnv201 testRepoConfig = .ok () ∧
    CreateGitRepository gitEnv400 testRepoConfig =
      .error "failed to create repository, status code: 400, response: Bad Request" := by
  refine ⟨?_, ?_⟩
  · exact (createGitRepository_success_iff_201 gitEnv201 testRepoConfig
      "mock_token" { statusCode := 201, body := .ok "" } ""
      rfl rfl rfl rfl).1.mpr rfl
  · have h := (createGitRepository_success_iff_201 gitEnv400 testRepoConfig
      "mock_token" { statusCode := 400, body := .ok "Bad Request" }
      "Bad Request" rfl rfl rfl rfl).2 (by decide)
    simpa using h
